import Mathlib

/-!
Verification of the facet query gateway against its specification.

The definitions below are a shallow embedding of the Python sources:
`backend/services/query_translator.py` (class SQLTranslator),
`backend/services/query_service.py` (QueryService.execute_query),
`backend/services/connection_service.py` (ConnectionService) and the
Pydantic models in `backend/models/query.py` and `backend/models/connection.py`.
Python machine behaviour is embedded explicitly: `Optional[T]` becomes
`Option T`, truthiness of optional strings is spelled out, exceptions become
`Except String`, and in-place mutation of `Metric.column` is modelled by
returning the post-call query model alongside the SQL string.
-/

namespace Facet

/-- Python values that can appear in `FilterCondition.value` (typed `Any`).
`pyStr` mirrors Python `str()`, `pyReprV` mirrors `repr()`. -/
inductive PyValue where
  | vStr (s : String)
  | vInt (n : Int)
  | vBool (b : Bool)
  | vNull
  | vList (l : List PyValue)

mutual

/-- Python `str(value)` for the embedded values. -/
def pyStr : PyValue → String
  | PyValue.vStr s => s
  | PyValue.vInt n => toString n
  | PyValue.vBool b => if b then "True" else "False"
  | PyValue.vNull => "None"
  | PyValue.vList l => "[" ++ String.intercalate ", " (pyReprList l) ++ "]"

/-- Python `repr(value)` (used for elements rendered inside a list). -/
def pyReprV : PyValue → String
  | PyValue.vStr s => "'" ++ s ++ "'"
  | PyValue.vInt n => toString n
  | PyValue.vBool b => if b then "True" else "False"
  | PyValue.vNull => "None"
  | PyValue.vList l => "[" ++ String.intercalate ", " (pyReprList l) ++ "]"

/-- `repr` of every element of a list, in order. -/
def pyReprList : List PyValue → List String
  | [] => []
  | v :: vs => pyReprV v :: pyReprList vs

end

/-- models/query.py `FilterCondition`. -/
structure FilterCondition where
  column : String
  operator : String
  value : PyValue

/-- models/query.py: an entry of `QueryModel.filters`, i.e. the union
`FilterCondition | LogicalFilterGroup` (the group holds its `logic` token
and nested entries of the same union). -/
inductive FilterNode where
  | cond (c : FilterCondition)
  | group (logic : String) (conditions : List FilterNode)

/-- models/query.py `TimeRange`; `customRange : Optional[Dict[str, str]]`
is embedded as an association list. -/
structure TimeRange where
  column : Option String := none
  range : String
  granularity : Option String := none
  customRange : Option (List (String × String)) := none
deriving DecidableEq

/-- models/query.py `Comparison`. -/
structure Comparison where
  enabled : Bool
  range : String
deriving DecidableEq

/-- models/query.py `Metric` (an aggregation); the Python field `alias` is
called `aliasName` here because `alias` is reserved in Lean. -/
structure Metric where
  column : Option String := none
  function : String
  aliasName : String
deriving DecidableEq

/-- models/query.py `SortOrder`. -/
structure SortOrder where
  column : String
  direction : String
deriving DecidableEq

/-- models/query.py `Visualization`; the `config` bag is irrelevant to the
translator and kept as an association list. -/
structure Visualization where
  type : String
  config : List (String × String) := []
deriving DecidableEq

/-- models/query.py `QuerySource`. -/
structure QuerySource where
  connectionId : String
  table : String
deriving DecidableEq

/-- models/query.py `QueryModel`, with the Pydantic field defaults. -/
structure QueryModel where
  source : Option QuerySource := none
  filters : List FilterNode := []
  groupBy : List String := []
  agg : List Metric := []
  timeRange : Option TimeRange := none
  comparison : Option Comparison := none
  sort : List SortOrder := []
  limit : Option Int := some 100
  offset : Option Int := none
  isServerPagination : Bool := false
  visualization : Option Visualization := none
  selectedFields : List String := []
  granularity : Option String := none

/-- ASCII uppercasing of one character, as Python `str.upper()` acts on the
ASCII identifiers and operator tokens the translator handles. -/
def upChar (c : Char) : Char :=
  if 97 ≤ c.toNat ∧ c.toNat ≤ 122 then Char.ofNat (c.toNat - 32) else c

/-- ASCII lowercasing of one character (Python `str.lower()`). -/
def lowChar (c : Char) : Char :=
  if 65 ≤ c.toNat ∧ c.toNat ≤ 90 then Char.ofNat (c.toNat + 32) else c

/-- Python `s.upper()` (ASCII). -/
def strUpper (s : String) : String := ⟨s.data.map upChar⟩

/-- Python `s.lower()` (ASCII). -/
def strLower (s : String) : String := ⟨s.data.map lowChar⟩

/-- Splits a character list at every occurrence of `sep` (Python
`str.split(sep)` for a one-character separator). -/
def splitChars (sep : Char) : List Char → List (List Char)
  | [] => [[]]
  | c :: cs =>
    match splitChars sep cs with
    | [] => [[c]]
    | h :: t => if c = sep then [] :: h :: t else (c :: h) :: t

/-- Python `s.split(sep)` for a one-character separator `sep`. -/
def strSplit (s : String) (sep : Char) : List String :=
  (splitChars sep s.data).map (fun l => ⟨l⟩)

/-- Python `s.replace(".", "_")` for one-character pattern and replacement. -/
def strReplaceChar (s : String) (pat repl : Char) : String :=
  ⟨s.data.map (fun c => if c = pat then repl else c)⟩

/-- Whether `pre` is a prefix of `l` (Python `str.startswith`). -/
def listPrefixCheck : List Char → List Char → Bool
  | [], _ => true
  | _ :: _, [] => false
  | a :: as, b :: bs => a = b && listPrefixCheck as bs

/-- Python `s.startswith(pre)`. -/
def strStartsWith (s pre : String) : Bool := listPrefixCheck pre.data s.data

/-- Python `s.strip() == ""`: every character is whitespace. -/
def strIsBlank (s : String) : Bool :=
  s.data.all (fun c =>
    c = ' ' ∨ c = '\t' ∨ c = '\n' ∨ c = '\x0d' ∨ c = '\x0b' ∨ c = '\x0c')

/-- Python truthiness of an `Optional[str]`: `None` and `""` are falsy. -/
def strOptTruthy : Option String → Bool
  | none => false
  | some s => s ≠ ""

/-- Truthiness of the `customRange` dict: `None` and `{}` are falsy. -/
def customTruthy : Option (List (String × String)) → Bool
  | none => false
  | some l => ¬ l.isEmpty

/-- `dict.get key` on the embedded association list. -/
def dictGet (l : List (String × String)) (key : String) : Option String :=
  (l.find? (fun p => p.1 = key)).map (fun p => p.2)

/-- Elements of an `IN (...)` list: strings are single-quoted, other values
are rendered with `str()` (query_translator.py lines 488-495). -/
def inListItems (l : List PyValue) : List String :=
  l.map (fun item =>
    match item with
    | PyValue.vStr s => "'" ++ s ++ "'"
    | v => pyStr v)

/-- `SQLTranslator._build_filter_condition`: renders one filter condition
for the given dialect, returning `""` for an unsupported operator. -/
def buildFilterCondition (dialect : String) (c : FilterCondition) : String :=
  let column := c.column
  let op := c.operator
  let v := c.value
  if op = "is_null" then column ++ " IS NULL"
  else if op = "is_not_null" then column ++ " IS NOT NULL"
  else if op = "=" then
    match v with
    | PyValue.vStr s => column ++ " = '" ++ s ++ "'"
    | _ => column ++ " = " ++ pyStr v
  else if op = "!=" then
    match v with
    | PyValue.vStr s => column ++ " != '" ++ s ++ "'"
    | _ => column ++ " != " ++ pyStr v
  else if op = ">" ∨ op = ">=" ∨ op = "<" ∨ op = "<=" then
    match v with
    | PyValue.vStr s => column ++ " " ++ op ++ " '" ++ s ++ "'"
    | _ => column ++ " " ++ op ++ " " ++ pyStr v
  else if op = "in" then
    let valuesStr :=
      match v with
      | PyValue.vList l => String.intercalate ", " (inListItems l)
      | _ => pyStr v
    column ++ " IN (" ++ valuesStr ++ ")"
  else if op = "not_in" then
    let valuesStr :=
      match v with
      | PyValue.vList l => String.intercalate ", " (inListItems l)
      | _ => pyStr v
    column ++ " NOT IN (" ++ valuesStr ++ ")"
  else if op = "contains" then
    if dialect = "postgresql" then column ++ " ILIKE '%" ++ pyStr v ++ "%'"
    else column ++ " LIKE '%" ++ pyStr v ++ "%'"
  else if op = "starts_with" then
    if dialect = "postgresql" then column ++ " ILIKE '" ++ pyStr v ++ "%'"
    else column ++ " LIKE '" ++ pyStr v ++ "%'"
  else if op = "ends_with" then
    if dialect = "postgresql" then column ++ " ILIKE '%" ++ pyStr v ++ "'"
    else column ++ " LIKE '%" ++ pyStr v ++ "'"
  else ""

mutual

/-- Rendering of one entry of a filter list: a bare condition goes through
`_build_filter_condition`, a group through `_build_filter_group`. The group
branch reproduces the source expression
`f"({' ' + logic_op + ' '.join(group_conditions)})"` verbatim, i.e.
`"(" ++ (" " ++ logic.upper) ++ (conditions joined by a single space) ++ ")"`
(query_translator.py line 449). -/
def renderFilterNode (dialect : String) : FilterNode → String
  | FilterNode.cond c => buildFilterCondition dialect c
  | FilterNode.group logic conditions =>
    let rendered := (renderFilterList dialect conditions).filter (fun s => s ≠ "")
    if rendered.isEmpty then ""
    else "(" ++ (" " ++ strUpper logic ++ String.intercalate " " rendered) ++ ")"

/-- Renders each node of a list in order (the loops of `_build_where` and
`_build_filter_group`). -/
def renderFilterList (dialect : String) : List FilterNode → List String
  | [] => []
  | n :: ns => renderFilterNode dialect n :: renderFilterList dialect ns

end

/-- `SQLTranslator._build_time_range_condition`: the clause for a `TimeRange`,
`""` when no column is set or the range is not recognised for the dialect. -/
def buildTimeRangeCondition (dialect : String) (tr : TimeRange) : String :=
  match tr.column with
  | none => ""
  | some col =>
    if col = "" then ""
    else
      let customResult : Option String :=
        if tr.range = "custom" ∧ customTruthy tr.customRange then
          let cr := tr.customRange.getD []
          let fromDate := dictGet cr "from"
          let toDate := dictGet cr "to"
          if strOptTruthy fromDate ∧ strOptTruthy toDate then
            some (col ++ " BETWEEN '" ++ fromDate.getD "" ++ "' AND '" ++ toDate.getD "" ++ "'")
          else if strOptTruthy fromDate then some (col ++ " >= '" ++ fromDate.getD "" ++ "'")
          else if strOptTruthy toDate then some (col ++ " <= '" ++ toDate.getD "" ++ "'")
          else none
        else none
      match customResult with
      | some s => s
      | none =>
        if strStartsWith tr.range "last_" then
          match strSplit tr.range '_' with
          | _ :: value :: unit :: _ =>
            if dialect = "postgresql" then
              col ++ " >= CURRENT_TIMESTAMP - INTERVAL '" ++ value ++ " " ++ unit ++ "'"
            else if dialect = "clickhouse" then
              col ++ " >= now() - INTERVAL " ++ value ++ " " ++ unit
            else ""
          | _ => ""
        else if strStartsWith tr.range "this_" then
          let unit := (strSplit tr.range '_').getD 1 ""
          if dialect = "postgresql" then
            col ++ " >= DATE_TRUNC('" ++ unit ++ "', CURRENT_TIMESTAMP)"
          else if dialect = "clickhouse" then
            if unit = "day" then col ++ " >= toStartOfDay(now())"
            else if unit = "week" then col ++ " >= toStartOfWeek(now())"
            else if unit = "month" then col ++ " >= toStartOfMonth(now())"
            else if unit = "quarter" then col ++ " >= toStartOfQuarter(now())"
            else if unit = "year" then col ++ " >= toStartOfYear(now())"
            else ""
          else ""
        else ""

/-- `SQLTranslator._build_where`: non-empty filter clauses, then the
time-range clause, joined with `AND`. -/
def buildWhere (dialect : String) (filters : List FilterNode)
    (timeRange : Option TimeRange) : String :=
  let conditions := (renderFilterList dialect filters).filter (fun s => s ≠ "")
  let conditions :=
    match timeRange with
    | none => conditions
    | some tr =>
      let t := buildTimeRangeCondition dialect tr
      if t = "" then conditions else conditions ++ [t]
  if conditions.isEmpty then ""
  else "WHERE " ++ String.intercalate " AND " conditions

/-- `SQLTranslator._build_from`: the table, with `public.` prepended for
postgres when the name has no dot; errors when `source` is `None`. -/
def buildFrom (dialect : String) (source : Option QuerySource) : Except String String :=
  match source with
  | none => Except.error "Query must specify a source table"
  | some src =>
    let tableName :=
      if dialect = "postgresql" ∧ ¬ src.table.data.contains '.' then "public." ++ src.table
      else src.table
    Except.ok ("FROM " ++ tableName)

/-- `SQLTranslator._build_group_by`. -/
def buildGroupBy (groupBy : List String) : String :=
  if groupBy.isEmpty then "" else "GROUP BY " ++ String.intercalate ", " groupBy

/-- The alias `trunc_<col_with_dots_replaced_by_underscore>_<granularity>`. -/
def truncAliasName (timeColumn granularity : String) : String :=
  "trunc_" ++ strReplaceChar timeColumn '.' '_' ++ "_" ++ granularity

/-- `SQLTranslator._build_group_by_with_granularity`: the time column is
replaced by its truncated alias. -/
def buildGroupByWithGranularity (groupBy : List String)
    (timeColumn granularity : Option String) : String :=
  match timeColumn, granularity with
  | some tc, some g =>
    if groupBy.isEmpty then ""
    else
      "GROUP BY " ++ String.intercalate ", "
        (groupBy.map (fun col => if col = tc then truncAliasName tc g else col))
  | _, _ => ""

/-- `SQLTranslator._build_order_by`. -/
def buildOrderBy (sort : List SortOrder) : String :=
  if sort.isEmpty then ""
  else
    "ORDER BY " ++ String.intercalate ", "
      (sort.map (fun s => s.column ++ " " ++ strUpper s.direction))

/-- Python `f"{x}"` for an `Optional[int]`. -/
def pyOptInt : Option Int → String
  | none => "None"
  | some n => toString n

/-- `SQLTranslator._build_limit`: with server pagination both LIMIT and
OFFSET are always emitted (offset defaulting to 0); otherwise `LIMIT n`
exactly when a limit is present, and never an OFFSET. -/
def buildLimit (limit offset : Option Int) (isServerPagination : Bool) : String :=
  if isServerPagination then
    "LIMIT " ++ pyOptInt limit ++ " OFFSET " ++ toString (offset.getD 0)
  else
    match limit with
    | none => ""
    | some n => "LIMIT " ++ toString n

/-- The pagination validation at the top of `SQLTranslator.translate`
(query_translator.py lines 46-54). -/
def paginationCheck (q : QueryModel) : Except String Unit :=
  if q.isServerPagination then
    if q.limit = none then Except.error "Server-side pagination requires a limit value"
    else if q.offset = none then Except.error "Server-side pagination requires an offset value"
    else Except.ok ()
  else if q.offset ≠ none then Except.error "Offset can only be used with server-side pagination"
  else Except.ok ()

/-- The last dot-separated component of a column name
(`column.split(".")[-1] if "." in column else column`). -/
def lastDotComponent (s : String) : String :=
  if s.data.contains '.' then (strSplit s '.').getLastD s else s

/-- Python truthiness of `metric.column` in `if not metric.column`. -/
def optColFalsy : Option String → Bool
  | none => true
  | some s => s = ""

/-- `metric.function.upper() if metric.function else "COUNT"`. -/
def metricFuncName (m : Metric) : String :=
  if m.function = "" then "COUNT" else strUpper m.function

/-- One non-COUNT aggregation item: `FUNC(col) AS alias`, the alias
defaulting to `func_<basename>` when the model's alias is empty. -/
def metricItemFor (funcName col alias0 : String) : String :=
  let columnName := lastDotComponent col
  let al := if alias0 = "" then strLower funcName ++ "_" ++ columnName else alias0
  funcName ++ "(" ++ col ++ ") AS " ++ al

/-- The metric loop shared by `_build_select` and
`_build_select_with_granularity` (query_translator.py lines 209-243 and
320-351): produces the aggregation select items and the metric list as it
stands after the loop — a non-COUNT metric with a falsy `column` is
overwritten in place with `selectedFields[0]` when fields are selected,
and raises otherwise. -/
def metricItems (sf : List String) : List Metric → Except String (List String × List Metric)
  | [] => Except.ok ([], [])
  | m :: ms =>
    let funcName := metricFuncName m
    if funcName = "COUNT" then
      (metricItems sf ms).map (fun p =>
        (("COUNT(*) AS " ++ (if m.aliasName = "" then "count" else m.aliasName)) :: p.1,
         m :: p.2))
    else if optColFalsy m.column then
      if sf.isEmpty then
        Except.error ("Column must be specified for " ++ funcName ++ " aggregation")
      else
        (metricItems sf ms).map (fun p =>
          (metricItemFor funcName (sf.headD "") m.aliasName :: p.1,
           { m with column := some (sf.headD "") } :: p.2))
    else
      (metricItems sf ms).map (fun p =>
        (metricItemFor funcName (m.column.getD "") m.aliasName :: p.1, m :: p.2))

/-- `SQLTranslator._build_select`: group-by dimensions, then aggregation
items; bare selected fields when both are absent; `SELECT *` when nothing
at all is selected. Returns the select clause together with the metric
list after the loop's in-place column updates. -/
def buildSelect (metrics : List Metric) (groupBy sf : List String) :
    Except String (String × List Metric) :=
  match metricItems sf metrics with
  | Except.error e => Except.error e
  | Except.ok (mItems, metrics') =>
    let items := groupBy ++ mItems
    let items := if items.isEmpty ∧ ¬ sf.isEmpty then sf else items
    if items.isEmpty then Except.ok ("SELECT *", metrics')
    else Except.ok ("SELECT " ++ String.intercalate ", " items, metrics')

/-- The field loop of `_build_select_for_table`: every selected field not
already a dimension and not blank becomes `FUNC(field) AS func_<basename>`. -/
def tableFieldItems (funcName : String) (groupBy : List String) : List String → List String
  | [] => []
  | f :: fs =>
    if groupBy.contains f then tableFieldItems funcName groupBy fs
    else if f = "" ∨ strIsBlank f then tableFieldItems funcName groupBy fs
    else
      (funcName ++ "(" ++ f ++ ") AS " ++ strLower funcName ++ "_" ++ lastDotComponent f)
        :: tableFieldItems funcName groupBy fs

/-- `SQLTranslator._build_select_for_table`: dimensions, then either a single
`COUNT(*)` or the first aggregation function applied to every selected
field; fails for a non-COUNT function with no selected fields. This path
never modifies the metrics. -/
def buildSelectForTable (metrics : List Metric) (groupBy sf : List String) :
    Except String String :=
  match metrics with
  | [] =>
    if groupBy.isEmpty then Except.ok "SELECT *"
    else Except.ok ("SELECT " ++ String.intercalate ", " groupBy)
  | m :: _ =>
    let funcName := strUpper m.function
    if funcName = "COUNT" then
      let items := groupBy ++ ["COUNT(*) AS " ++ (if m.aliasName = "" then "count" else m.aliasName)]
      Except.ok ("SELECT " ++ String.intercalate ", " items)
    else if sf.isEmpty then
      Except.error ("You must select fields for " ++ funcName ++ " aggregation")
    else
      let items := groupBy ++ tableFieldItems funcName groupBy sf
      if items.isEmpty then Except.ok "SELECT *"
      else Except.ok ("SELECT " ++ String.intercalate ", " items)

/-- The dialect-specific truncated time expression with its alias
(query_translator.py lines 283-312); fails for an unsupported ClickHouse
granularity, and falls back to postgres syntax for unknown dialects. -/
def truncSelectItem (dialect timeColumn granularity : String) : Except String String :=
  let al := truncAliasName timeColumn granularity
  if dialect = "postgresql" then
    Except.ok ("DATE_TRUNC('" ++ granularity ++ "', " ++ timeColumn ++ ") AS " ++ al)
  else if dialect = "clickhouse" then
    if granularity = "minute" then Except.ok ("toStartOfMinute(" ++ timeColumn ++ ") AS " ++ al)
    else if granularity = "hour" then Except.ok ("toStartOfHour(" ++ timeColumn ++ ") AS " ++ al)
    else if granularity = "day" then Except.ok ("toStartOfDay(" ++ timeColumn ++ ") AS " ++ al)
    else if granularity = "week" then Except.ok ("toStartOfWeek(" ++ timeColumn ++ ") AS " ++ al)
    else if granularity = "month" then Except.ok ("toStartOfMonth(" ++ timeColumn ++ ") AS " ++ al)
    else Except.error ("Unsupported granularity for ClickHouse: " ++ granularity)
  else if dialect = "bigquery" then
    Except.ok ("TIMESTAMP_TRUNC(" ++ timeColumn ++ ", " ++ strUpper granularity ++ ") AS " ++ al)
  else if dialect = "snowflake" then
    Except.ok ("DATE_TRUNC('" ++ granularity ++ "', " ++ timeColumn ++ ") AS " ++ al)
  else
    Except.ok ("DATE_TRUNC('" ++ granularity ++ "', " ++ timeColumn ++ ") AS " ++ al)

/-- `SQLTranslator._build_select_with_granularity`: the truncated time
expression first, then the remaining dimensions, then the aggregations.
Returns the clause with the post-loop metric list. -/
def buildSelectWithGranularity (dialect : String) (metrics : List Metric)
    (groupBy sf : List String) (timeColumn granularity : Option String) :
    Except String (String × List Metric) :=
  let truncItems : Except String (List String) :=
    if strOptTruthy timeColumn ∧ strOptTruthy granularity then
      (truncSelectItem dialect (timeColumn.getD "") (granularity.getD "")).map (fun s => [s])
    else Except.ok []
  match truncItems with
  | Except.error e => Except.error e
  | Except.ok ti =>
    let dims :=
      match timeColumn with
      | some tc => groupBy.filter (fun c => c ≠ tc)
      | none => groupBy
    match metricItems sf metrics with
    | Except.error e => Except.error e
    | Except.ok (mItems, metrics') =>
      Except.ok ("SELECT " ++ String.intercalate ", " (ti ++ dims ++ mItems), metrics')

/-- The `is_time_granularity` condition of `SQLTranslator.translate`
(query_translator.py lines 64-71): line visualization, truthy granularity,
a time-range column that is not `None`, and membership of that column in a
non-empty `groupBy`. -/
def isTimeGranularity (q : QueryModel) (vizType : String) : Bool :=
  vizType = "line" && strOptTruthy q.granularity &&
    (match q.timeRange with
     | none => false
     | some tr =>
       match tr.column with
       | none => false
       | some c => !q.groupBy.isEmpty && q.groupBy.contains c)

/-- The group-by dispatch condition of `SQLTranslator.translate`
(query_translator.py lines 99-105): granularity grouping is used only when
additionally `groupBy[0]` equals the time-range column. -/
def useGranGroupBy (q : QueryModel) (itg : Bool) : Bool :=
  itg && !q.groupBy.isEmpty &&
    (match q.timeRange with
     | none => false
     | some tr =>
       match tr.column with
       | none => false
       | some c => q.groupBy.headD "" = c)

/-- The column passed for time truncation, `query_model.timeRange.column`
guarded by `timeRange is not None`. -/
def timeColumnOf (q : QueryModel) : Option String :=
  match q.timeRange with
  | some tr => tr.column
  | none => none

/-- The SELECT-clause dispatch of `SQLTranslator.translate`
(query_translator.py lines 73-92): granularity select, table select, or
the plain select, together with the post-call metric list. -/
def selectDispatch (dialect : String) (q : QueryModel) (vizType : String) :
    Except String (String × List Metric) :=
  if isTimeGranularity q vizType then
    buildSelectWithGranularity dialect q.agg q.groupBy q.selectedFields
      (timeColumnOf q) q.granularity
  else if vizType = "table" ∧ ¬ q.selectedFields.isEmpty then
    (buildSelectForTable q.agg q.groupBy q.selectedFields).map (fun s => (s, q.agg))
  else
    buildSelect q.agg q.groupBy q.selectedFields

/-- The GROUP BY dispatch of `SQLTranslator.translate`
(query_translator.py lines 99-112). -/
def groupByClauseFor (q : QueryModel) (vizType : String) : String :=
  if useGranGroupBy q (isTimeGranularity q vizType) then
    buildGroupByWithGranularity q.groupBy (timeColumnOf q) q.granularity
  else if ¬ q.agg.isEmpty ∨ ¬ q.groupBy.isEmpty then buildGroupBy q.groupBy
  else ""

/-- `SQLTranslator.translate`, returning the SQL string together with the
query model as it stands after the call (the source mutates
`Metric.column` in place; every other field is passed through). A `None`
visualization raises `AttributeError` at `query_model.visualization.type`
(query_translator.py line 56), embedded as the corresponding error. -/
def translateWithState (dialect : String) (q : QueryModel) :
    Except String (String × QueryModel) :=
  match paginationCheck q with
  | Except.error e => Except.error e
  | Except.ok _ =>
    match q.visualization with
    | none => Except.error "'NoneType' object has no attribute 'type'"
    | some viz =>
      match selectDispatch dialect q viz.type with
      | Except.error e => Except.error e
      | Except.ok (selectClause, agg') =>
        match buildFrom dialect q.source with
        | Except.error e => Except.error e
        | Except.ok fromClause =>
          Except.ok
            (selectClause ++ "\n" ++ fromClause ++ "\n"
              ++ buildWhere dialect q.filters q.timeRange ++ "\n"
              ++ groupByClauseFor q viz.type ++ "\n" ++ buildOrderBy q.sort ++ "\n"
              ++ buildLimit q.limit q.offset q.isServerPagination,
             { q with agg := agg' })

/-- `SQLTranslator.translate`: the SQL string alone. -/
def translate (dialect : String) (q : QueryModel) : Except String String :=
  (translateWithState dialect q).map Prod.fst

/-- `SQLTranslator.translate_count`: wraps the SQL of `translate` applied to
the query model as given (query_translator.py lines 695-712). -/
def translate_count (dialect : String) (q : QueryModel) : Except String String :=
  (translate dialect q).map (fun baseSql =>
    let sql := "SELECT COUNT(*) AS count FROM (" ++ baseSql ++ ")"
    if dialect = "clickhouse" then sql ++ " AS sub_query" else sql)

/-- models/connection.py `Connection`: id, name, type and the open config
bag (timestamps and the bigquery dataset hints carried as strings). -/
structure ConnectionM where
  id : String
  name : String
  type : String
  config : List (String × String) := []
deriving DecidableEq

/-- The in-memory state of `ConnectionService`: predefined connections
loaded from the YAML config and runtime session connections. -/
structure ConnectionServiceState where
  predefined : List ConnectionM
  session : List ConnectionM
deriving DecidableEq

/-- `ConnectionService.get_connection`: predefined connections are checked
first, then session connections. -/
def get_connection (st : ConnectionServiceState) (connectionId : String) :
    Option ConnectionM :=
  match st.predefined.find? (fun c => c.id = connectionId) with
  | some c => some c
  | none => st.session.find? (fun c => c.id = connectionId)

/-- `ConnectionService.create_connection`: appends to the session list and
returns the connection. -/
def create_connection (st : ConnectionServiceState) (c : ConnectionM) :
    ConnectionServiceState × ConnectionM :=
  ({ st with session := st.session ++ [c] }, c)

/-- Replaces the first session connection with a matching id (the
`for i, existing …: … break` loop of `update_connection`). -/
def replaceFirstById : List ConnectionM → ConnectionM → List ConnectionM
  | [], _ => []
  | x :: xs, c => if x.id = c.id then c :: xs else x :: replaceFirstById xs c

/-- `ConnectionService.update_connection`: a predefined connection is left
untouched and returned as-is; otherwise the first session connection with
the same id is replaced and the argument returned. -/
def update_connection (st : ConnectionServiceState) (c : ConnectionM) :
    ConnectionServiceState × ConnectionM :=
  match st.predefined.find? (fun p => p.id = c.id) with
  | some p => (st, p)
  | none => ({ st with session := replaceFirstById st.session c }, c)

/-- `ConnectionService.delete_connection`: returns early for a predefined
id, otherwise removes every session connection with that id. -/
def delete_connection (st : ConnectionServiceState) (connectionId : String) :
    ConnectionServiceState :=
  if st.predefined.any (fun p => p.id = connectionId) then st
  else { st with session := st.session.filter (fun c => c.id ≠ connectionId) }

/-- models/query.py `ColumnInfo` (name and optional normalized type). -/
structure ColumnInfoM where
  name : String
  type : Option String := none
deriving DecidableEq

/-- models/query.py `QueryResult`, with rows embedded as association lists
of rendered values and the wall-clock time as a `Nat`. -/
structure QueryResultM where
  columns : List ColumnInfoM
  data : List (List (String × String))
  rowCount : Nat
  totalCount : Option Nat := none
  executionTime : Nat
  sql : String
  warnings : List String := []
  error : Option String := none
  suggestions : Option (List String) := none
  hasMore : Bool := false
deriving DecidableEq

/-- The driver calls `QueryService.execute_query` makes, in order; `close`
is part of the driver capability (base_connector.py) and listed so that
its absence from a trace is expressible. -/
inductive DriverEvent where
  | createConnector
  | connect
  | getDialect
  | execute
  | close
deriving DecidableEq

/-- The outcomes of the driver calls of one request: whether `connect`
raises, and what `execute_query` on the driver returns (rows, columns as
name/type pairs, elapsed time) or raises. -/
structure DriverOracle where
  connectResult : Option String
  executeResult : Except String (List (List (String × String)) × List (String × String) × Nat)

/-- `DatabaseConnectorFactory.create_connector` combined with the drivers'
`get_dialect`: postgres → postgresql, clickhouse → clickhouse, anything
else → no connector (factory returns `None`). -/
def connectorDialect (t : String) : Option String :=
  if t = "postgres" then some "postgresql"
  else if t = "clickhouse" then some "clickhouse"
  else none

/-- The error envelope built in the `except` block of
`QueryService.execute_query` (query_service.py lines 82-99): empty data,
`rowCount=0`, the exception text, and the SQL if it was assigned. -/
def errorResult (msg sql : String) : QueryResultM :=
  { columns := [], data := [], rowCount := 0, totalCount := none, executionTime := 0,
    sql := sql, warnings := [], error := some msg,
    suggestions := some ["Check your filter conditions", "Verify table and column names",
      "Simplify the query"],
    hasMore := false }

/-- `QueryService.execute_query`, instrumented with the list of driver
calls it performs: create the connector (raising for an unsupported type),
connect, read the dialect, translate, execute; any exception is caught and
turned into `errorResult`. The source contains no `close()` call on any
path. -/
def execute_query (o : DriverOracle) (conn : ConnectionM) (q : QueryModel) :
    List DriverEvent × QueryResultM :=
  match connectorDialect conn.type with
  | none =>
    ([DriverEvent.createConnector],
     errorResult ("Unsupported database type: " ++ conn.type) "")
  | some dialect =>
    match o.connectResult with
    | some msg =>
      ([DriverEvent.createConnector, DriverEvent.connect], errorResult msg "")
    | none =>
      match translate dialect q with
      | Except.error msg =>
        ([DriverEvent.createConnector, DriverEvent.connect, DriverEvent.getDialect],
         errorResult msg "")
      | Except.ok sql =>
        match o.executeResult with
        | Except.error msg =>
          ([DriverEvent.createConnector, DriverEvent.connect, DriverEvent.getDialect,
            DriverEvent.execute],
           errorResult msg sql)
        | Except.ok (rows, cols, elapsed) =>
          ([DriverEvent.createConnector, DriverEvent.connect, DriverEvent.getDialect,
            DriverEvent.execute],
           { columns := cols.map (fun c => { name := c.1, type := some c.2 }),
             data := rows, rowCount := rows.length, totalCount := none,
             executionTime := elapsed, sql := sql, warnings := [], error := none,
             suggestions := none, hasMore := false })

/-- How one metric of the input relates to the corresponding metric after
a call of `translate`: function and alias are untouched, and the column is
either untouched or — when it was falsy — overwritten with the first
selected field. -/
def mutatedFrom (sf : List String) (m m' : Metric) : Prop :=
  m'.function = m.function ∧ m'.aliasName = m.aliasName ∧
    (m'.column = m.column ∨
      (optColFalsy m.column = true ∧ m'.column = some (sf.headD "")))

/-- C1. The claimed rendering of filter groups fails on the code: the join
expression in `_build_filter_group` (query_translator.py line 449)
associates as `' ' + logic_op + (' '.join(conds))`, so the group
`{logic: or, conditions: [{country,=,US},{country,=,CA}]}` renders as
`( ORcountry = 'US' country = 'CA')` — the siblings are joined by single
spaces with the uppercased token glued to the first one — instead of the
claimed `(country = 'US' OR country = 'CA')`; the same string reaches the
WHERE clause. The repository's own test
(tests/services/test_query_translator.py line 115) asserts the claimed
form, so this is a bug in the code. -/
theorem claim_C1_filter_group_join_bug :
    renderFilterNode "postgresql"
      (FilterNode.group "or"
        [FilterNode.cond ⟨"country", "=", PyValue.vStr "US"⟩,
         FilterNode.cond ⟨"country", "=", PyValue.vStr "CA"⟩])
      = "( ORcountry = 'US' country = 'CA')" ∧
    buildWhere "postgresql"
      [FilterNode.cond ⟨"ts", ">=", PyValue.vStr "2025-03-01T00:00:00Z"⟩,
       FilterNode.group "or"
         [FilterNode.cond ⟨"country", "=", PyValue.vStr "US"⟩,
          FilterNode.cond ⟨"country", "=", PyValue.vStr "CA"⟩]]
      none
      = "WHERE ts >= '2025-03-01T00:00:00Z' AND ( ORcountry = 'US' country = 'CA')" ∧
    "( ORcountry = 'US' country = 'CA')" ≠ "(country = 'US' OR country = 'CA')" := by
  refine ⟨rfl, rfl, ?_⟩
  decide

/-- C2. `translate_count` does not clear `limit`, `offset` or
`isServerPagination` before wrapping: it wraps `translate` of the query
model as given, so the inner SQL keeps the outer query's LIMIT/OFFSET.
With `limit=10` the wrapped SQL ends in `LIMIT 10`, and with server
pagination `limit=50, offset=100` the ClickHouse count query keeps
`LIMIT 50 OFFSET 100` inside the subquery — contradicting the claimed
`translate(q')` with pagination cleared. -/
theorem claim_C2_count_keeps_limit :
    translate_count "postgresql"
      { source := some ⟨"c1", "events"⟩, visualization := some ⟨"table", []⟩,
        limit := some 10 }
      = Except.ok "SELECT COUNT(*) AS count FROM (SELECT *\nFROM public.events\n\n\n\nLIMIT 10)" ∧
    translate_count "clickhouse"
      { source := some ⟨"c1", "events"⟩, visualization := some ⟨"table", []⟩,
        limit := some 50, offset := some 100, isServerPagination := true }
      = Except.ok
          "SELECT COUNT(*) AS count FROM (SELECT *\nFROM events\n\n\n\nLIMIT 50 OFFSET 100) AS sub_query" := by
  exact ⟨rfl, rfl⟩

/-- C6. `QueryService.execute_query` never invokes the driver's `close()`
on any path: the driver-call trace of a successful execution, of a failing
driver `execute`, and of a failing translation all lack a `close` event,
contradicting the claim (and §4.4 step 8 of the spec) that the driver is
closed on every exit path. -/
theorem claim_C6_close_never_called :
    DriverEvent.close ∉
      (execute_query
        { connectResult := none,
          executeResult := Except.ok ([[("id", "1")], [("id", "2")]], [("id", "integer")], 1) }
        ⟨"conn1", "Test Connection", "postgres", []⟩
        { source := some ⟨"c1", "events"⟩, visualization := some ⟨"table", []⟩ }).1 ∧
    DriverEvent.close ∉
      (execute_query
        { connectResult := none, executeResult := Except.error "Test error" }
        ⟨"conn1", "Test Connection", "postgres", []⟩
        { source := some ⟨"c1", "events"⟩, visualization := some ⟨"table", []⟩ }).1 ∧
    DriverEvent.close ∉
      (execute_query
        { connectResult := none, executeResult := Except.error "Test error" }
        ⟨"conn1", "Test Connection", "postgres", []⟩
        { source := some ⟨"c1", "events"⟩, offset := some 5 }).1 := by
  refine ⟨?_, ?_, ?_⟩ <;> decide

/-- C8. The minimal query model (only `source` populated, everything else
at its Pydantic default) does not translate to
`SELECT *\nFROM public.events\n\n\n\n`: the default `visualization` is
`None` and `translate` dereferences `query_model.visualization.type`
without a guard (query_translator.py line 56), raising `AttributeError` —
even though the repository's own translator tests run `translate` on
models without a visualization and expect SQL. (Had a visualization been
present, the default `limit=100` would additionally append `LIMIT 100`.) -/
theorem claim_C8_minimal_model_raises :
    translate "postgresql" ({ source := some ⟨"c1", "events"⟩ } : QueryModel)
      = Except.error "'NoneType' object has no attribute 'type'" ∧
    translate "postgresql"
      { source := some ⟨"c1", "events"⟩, visualization := some ⟨"table", []⟩ }
      = Except.ok "SELECT *\nFROM public.events\n\n\n\nLIMIT 100" := by
  exact ⟨rfl, rfl⟩

/-- C4 counterexample. With `visualization.type=line`, `granularity=day`,
`timeRange.column=ts` and `ts ∈ groupBy` but not in first position
(`groupBy=[service, ts]`), the SELECT does contain the single truncated
expression, but the GROUP BY keeps the raw column `ts` instead of the
alias `trunc_ts_day`: the dispatch at query_translator.py lines 99-105
requires `groupBy[0] == timeRange.column`. This refutes the claim for
membership at an arbitrary position. -/
theorem claim_C4_counterexample :
    translate "clickhouse"
      { source := some ⟨"c1", "events"⟩,
        groupBy := ["service", "ts"],
        agg := [{ column := none, function := "count", aliasName := "n" }],
        timeRange := some { column := some "ts", range := "last_7_days" },
        limit := none,
        visualization := some ⟨"line", []⟩,
        granularity := some "day" }
      = Except.ok ("SELECT toStartOfDay(ts) AS trunc_ts_day, service, COUNT(*) AS n\n"
          ++ "FROM events\nWHERE ts >= now() - INTERVAL 7 days\n"
          ++ "GROUP BY service, ts\n\n") ∧
    (strSplit ("SELECT toStartOfDay(ts) AS trunc_ts_day, service, COUNT(*) AS n\n"
          ++ "FROM events\nWHERE ts >= now() - INTERVAL 7 days\n"
          ++ "GROUP BY service, ts\n\n") '\n').getD 3 ""
      = "GROUP BY service, ts" ∧
    "GROUP BY service, ts" ≠ "GROUP BY trunc_ts_day, service" := by
  refine ⟨rfl, by decide, by decide⟩

/-- C5 counterexample. `translate` is not side-effect-free on the query
model: for a `pie` visualization with `selectedFields=[price]` and a
`sum` aggregation whose `column` is unset, `_build_select` overwrites
`Metric.column` with `selectedFields[0]` (query_translator.py line 226),
so the model after the call differs from the input. -/
theorem claim_C5_counterexample :
    translateWithState "postgresql"
      { source := some ⟨"c1", "events"⟩,
        agg := [{ column := none, function := "sum", aliasName := "s" }],
        limit := none,
        visualization := some ⟨"pie", []⟩,
        selectedFields := ["price"] }
      = Except.ok ("SELECT SUM(price) AS s\nFROM public.events\n\n\n\n",
          { source := some ⟨"c1", "events"⟩,
            agg := [{ column := some "price", function := "sum", aliasName := "s" }],
            limit := none,
            visualization := some ⟨"pie", []⟩,
            selectedFields := ["price"] }) ∧
    ([{ column := some "price", function := "sum", aliasName := "s" }] : List Metric)
      ≠ [{ column := none, function := "sum", aliasName := "s" }] := by
  refine ⟨rfl, by decide⟩

/-- `translate` fails with exactly the error of the pagination check
whenever that check fails: the check is the first statement of
`translate`, before any SQL is assembled. -/
lemma translate_pagination_error (d : String) (q : QueryModel) (e : String)
    (h : paginationCheck q = Except.error e) :
    translate d q = Except.error e := by
  unfold translate translateWithState
  rw [h]
  rfl

/-- A successful `translate` implies the pagination check succeeded. -/
lemma paginationCheck_of_translate (d : String) (q : QueryModel)
    (s : String) (q' : QueryModel)
    (h : translateWithState d q = Except.ok (s, q')) :
    paginationCheck q = Except.ok () := by
  unfold translateWithState at h
  cases hpc : paginationCheck q with
  | error e => rw [hpc] at h; exact absurd h (by simp)
  | ok u => cases u; rfl

/-- Without server pagination, a passing check forces a null offset. -/
lemma offset_none_of_paginationCheck (q : QueryModel)
    (hsp : q.isServerPagination = false)
    (h : paginationCheck q = Except.ok ()) : q.offset = none := by
  unfold paginationCheck at h
  rw [hsp] at h
  simp only [Bool.false_eq_true, if_false] at h
  by_cases ho : q.offset = none
  · exact ho
  · rw [if_pos ho] at h; exact absurd h (by simp)

/-- C3. The pagination validation of `translate`: with server pagination a
null `limit` (resp. a null `offset`) raises the corresponding error before
any SQL is built; without server pagination a non-null `offset` raises;
and for every other model the check passes. -/
theorem claim_C3_pagination_validation :
    (∀ (d : String) (q : QueryModel), q.isServerPagination = true → q.limit = none →
       translate d q = Except.error "Server-side pagination requires a limit value") ∧
    (∀ (d : String) (q : QueryModel), q.isServerPagination = true → q.limit ≠ none →
       q.offset = none →
       translate d q = Except.error "Server-side pagination requires an offset value") ∧
    (∀ (d : String) (q : QueryModel), q.isServerPagination = false → q.offset ≠ none →
       translate d q = Except.error "Offset can only be used with server-side pagination") ∧
    (∀ (q : QueryModel), (q.isServerPagination = true → q.limit ≠ none ∧ q.offset ≠ none) →
       (q.isServerPagination = false → q.offset = none) →
       paginationCheck q = Except.ok ()) := by
  refine ⟨?_, ?_, ?_, ?_⟩
  · intro d q hsp hl
    apply translate_pagination_error
    unfold paginationCheck
    rw [hsp, if_pos rfl, if_pos hl]
  · intro d q hsp hl ho
    apply translate_pagination_error
    unfold paginationCheck
    rw [hsp, if_pos rfl, if_neg hl, if_pos ho]
  · intro d q hsp ho
    apply translate_pagination_error
    unfold paginationCheck
    rw [hsp]
    simp only [Bool.false_eq_true, if_false]
    rw [if_pos ho]
  · intro q h1 h2
    unfold paginationCheck
    cases hsp : q.isServerPagination with
    | true =>
      obtain ⟨hl, ho⟩ := h1 hsp
      rw [if_pos rfl, if_neg hl, if_neg ho]
    | false =>
      have ho := h2 hsp
      simp only [Bool.false_eq_true, if_false]
      rw [if_neg (by simp [ho])]

/-- `claim_C3_pagination_validation` at concrete inputs: each of the four
conjuncts applied with its hypotheses discharged. -/
theorem claim_C3_witness :
    translate "postgresql"
      { source := some ⟨"c1", "events"⟩, limit := none, offset := some 0,
        isServerPagination := true }
      = Except.error "Server-side pagination requires a limit value" ∧
    translate "postgresql"
      { source := some ⟨"c1", "events"⟩, limit := some 50, offset := none,
        isServerPagination := true }
      = Except.error "Server-side pagination requires an offset value" ∧
    translate "postgresql"
      { source := some ⟨"c1", "events"⟩, offset := some 5 }
      = Except.error "Offset can only be used with server-side pagination" ∧
    paginationCheck
      { source := some ⟨"c1", "events"⟩, limit := some 50, offset := some 0,
        isServerPagination := true }
      = Except.ok () := by
  refine ⟨?_, ?_, ?_, ?_⟩
  · exact claim_C3_pagination_validation.1 "postgresql" _ rfl rfl
  · exact claim_C3_pagination_validation.2.1 "postgresql" _ rfl (by decide) rfl
  · exact claim_C3_pagination_validation.2.2.1 "postgresql" _ rfl (by decide)
  · exact claim_C3_pagination_validation.2.2.2 _ (fun _ => ⟨by decide, by decide⟩)
      (fun h => by simp at h)

/-- If no element of `l` has id `i`, the id lookup finds nothing. -/
lemma find_id_eq_none {l : List ConnectionM} {i : String}
    (h : ∀ p ∈ l, p.id ≠ i) : l.find? (fun c => c.id = i) = none := by
  rw [List.find?_eq_none]
  intro x hx
  simpa using h x hx

/-- Appending `c` to a list free of its id makes the id lookup find `c`. -/
lemma find_id_append_single {l : List ConnectionM} {c : ConnectionM}
    (h : ∀ s ∈ l, s.id ≠ c.id) :
    (l ++ [c]).find? (fun x => x.id = c.id) = some c := by
  induction l with
  | nil => simp [List.find?]
  | cons x xs ih =>
    have hx : x.id ≠ c.id := h x (List.mem_cons_self x xs)
    have hxs : ∀ s ∈ xs, s.id ≠ c.id := fun s hs => h s (List.mem_cons_of_mem x hs)
    simpa [List.find?, hx] using ih hxs

/-- After filtering out id `i`, the id lookup finds nothing. -/
lemma find_id_filter_none (l : List ConnectionM) (i : String) :
    (l.filter (fun c => c.id ≠ i)).find? (fun c => c.id = i) = none := by
  induction l with
  | nil => rfl
  | cons x xs ih =>
    by_cases hx : x.id = i
    · simp [List.filter_cons, hx, ih]
    · simp [List.filter_cons, List.find?, hx, ih]

/-- With distinct predefined ids, the first-match lookup of a member's id
returns that member. -/
lemma find_id_of_mem_nodup {l : List ConnectionM} {p : ConnectionM} {i : String}
    (hnd : (l.map (fun x => x.id)).Nodup) (hp : p ∈ l) (hi : i = p.id) :
    l.find? (fun x => x.id = i) = some p := by
  induction l with
  | nil => exact absurd hp (List.not_mem_nil p)
  | cons x xs ih =>
    rw [List.map_cons, List.nodup_cons] at hnd
    rcases List.mem_cons.mp hp with hpx | hpxs
    · subst hpx
      simp [List.find?, hi]
    · have hx : x.id ≠ i := by
        intro hcontra
        apply hnd.1
        rw [hcontra, hi]
        exact List.mem_map_of_mem (fun y => y.id) hpxs
      simpa [List.find?, hx] using ih hnd.2 hpxs

/-- C9. Connection CRUD on `ConnectionService`: creating a connection with
a fresh id makes it retrievable; deleting a session id not shadowed by a
predefined connection makes it unretrievable; updating with the id of a
predefined connection changes nothing and returns the original predefined
entry; deleting a predefined id changes nothing. -/
theorem claim_C9_connection_crud :
    (∀ (st : ConnectionServiceState) (c : ConnectionM),
       (∀ p ∈ st.predefined, p.id ≠ c.id) → (∀ s ∈ st.session, s.id ≠ c.id) →
       get_connection (create_connection st c).1 c.id = some c) ∧
    (∀ (st : ConnectionServiceState) (i : String),
       (∀ p ∈ st.predefined, p.id ≠ i) →
       get_connection (delete_connection st i) i = none) ∧
    (∀ (st : ConnectionServiceState) (c p : ConnectionM),
       (st.predefined.map (fun x => x.id)).Nodup → p ∈ st.predefined → c.id = p.id →
       update_connection st c = (st, p)) ∧
    (∀ (st : ConnectionServiceState) (p : ConnectionM), p ∈ st.predefined →
       delete_connection st p.id = st) := by
  refine ⟨?_, ?_, ?_, ?_⟩
  · intro st c hpre hses
    unfold create_connection get_connection
    rw [find_id_eq_none hpre, find_id_append_single hses]
  · intro st i hpre
    unfold delete_connection get_connection
    have hany : st.predefined.any (fun p => p.id = i) = false := by
      rw [List.any_eq_false]
      intro x hx
      simpa using hpre x hx
    rw [if_neg (by simp [hany])]
    rw [find_id_eq_none hpre]
    exact find_id_filter_none st.session i
  · intro st c p hnd hp hi
    unfold update_connection
    rw [find_id_of_mem_nodup hnd hp hi]
  · intro st p hp
    unfold delete_connection
    rw [if_pos (by rw [List.any_eq_true]; exact ⟨p, hp, by simp⟩)]

/-- `claim_C9_connection_crud` at a concrete service state: one predefined
connection and one created session connection. -/
theorem claim_C9_witness :
    get_connection
      (create_connection ⟨[⟨"predef_0_postgres", "Main", "postgres", []⟩], []⟩
        ⟨"sess_1", "Scratch", "clickhouse", []⟩).1
      "sess_1" = some ⟨"sess_1", "Scratch", "clickhouse", []⟩ ∧
    get_connection
      (delete_connection ⟨[⟨"predef_0_postgres", "Main", "postgres", []⟩],
        [⟨"sess_1", "Scratch", "clickhouse", []⟩]⟩ "sess_1")
      "sess_1" = none ∧
    update_connection ⟨[⟨"predef_0_postgres", "Main", "postgres", []⟩], []⟩
      ⟨"predef_0_postgres", "Hacked", "postgres", []⟩
      = (⟨[⟨"predef_0_postgres", "Main", "postgres", []⟩], []⟩,
         ⟨"predef_0_postgres", "Main", "postgres", []⟩) ∧
    delete_connection ⟨[⟨"predef_0_postgres", "Main", "postgres", []⟩], []⟩
      "predef_0_postgres"
      = ⟨[⟨"predef_0_postgres", "Main", "postgres", []⟩], []⟩ := by
  refine ⟨?_, ?_, ?_, ?_⟩
  · exact claim_C9_connection_crud.1 _ _ (by decide) (by decide)
  · exact claim_C9_connection_crud.2.1 _ _ (by decide)
  · exact claim_C9_connection_crud.2.2.1
      ⟨[⟨"predef_0_postgres", "Main", "postgres", []⟩], []⟩
      ⟨"predef_0_postgres", "Hacked", "postgres", []⟩
      ⟨"predef_0_postgres", "Main", "postgres", []⟩
      (by decide) (by decide) (by decide)
  · exact claim_C9_connection_crud.2.2.2
      ⟨[⟨"predef_0_postgres", "Main", "postgres", []⟩], []⟩
      ⟨"predef_0_postgres", "Main", "postgres", []⟩
      (by decide)

/-- C7. Every exception inside `QueryService.execute_query` — unsupported
connection type, `connect` failure, translation failure, driver `execute`
failure — is caught and converted into a normally returned `QueryResult`
whose `error` is the exception text, with `rowCount = 0`, empty `data`,
and `sql` holding the SQL generated so far (`""` when translation never
produced SQL, the translated SQL when `execute` failed). -/
theorem claim_C7_error_envelope :
    (∀ (o : DriverOracle) (conn : ConnectionM) (q : QueryModel),
       connectorDialect conn.type = none →
       (execute_query o conn q).2
         = errorResult ("Unsupported database type: " ++ conn.type) "") ∧
    (∀ (o : DriverOracle) (conn : ConnectionM) (q : QueryModel) (d msg : String),
       connectorDialect conn.type = some d → o.connectResult = some msg →
       (execute_query o conn q).2 = errorResult msg "") ∧
    (∀ (o : DriverOracle) (conn : ConnectionM) (q : QueryModel) (d msg : String),
       connectorDialect conn.type = some d → o.connectResult = none →
       translate d q = Except.error msg →
       (execute_query o conn q).2 = errorResult msg "") ∧
    (∀ (o : DriverOracle) (conn : ConnectionM) (q : QueryModel) (d sql msg : String),
       connectorDialect conn.type = some d → o.connectResult = none →
       translate d q = Except.ok sql → o.executeResult = Except.error msg →
       (execute_query o conn q).2 = errorResult msg sql) ∧
    (∀ (msg sql : String),
       (errorResult msg sql).error = some msg ∧ (errorResult msg sql).rowCount = 0 ∧
       (errorResult msg sql).data = [] ∧ (errorResult msg sql).sql = sql) := by
  refine ⟨?_, ?_, ?_, ?_, ?_⟩
  · intro o conn q hd
    unfold execute_query
    rw [hd]
  · intro o conn q d msg hd hc
    unfold execute_query
    rw [hd, hc]
  · intro o conn q d msg hd hc ht
    unfold execute_query
    rw [hd, hc]
    dsimp only
    rw [ht]
  · intro o conn q d sql msg hd hc ht he
    unfold execute_query
    rw [hd, hc]
    dsimp only
    rw [ht, he]
  · intro msg sql
    exact ⟨rfl, rfl, rfl, rfl⟩

/-- `claim_C7_error_envelope` at concrete inputs: an unsupported sqlite
connection, a failing `connect`, a translation failure (invalid offset),
and a failing driver `execute` after a successful translation. -/
theorem claim_C7_witness :
    (execute_query
        { connectResult := none, executeResult := Except.error "ignored" }
        ⟨"conn9", "Test", "sqlite", []⟩
        { source := some ⟨"c1", "events"⟩, visualization := some ⟨"table", []⟩ }).2
      = errorResult "Unsupported database type: sqlite" "" ∧
    (execute_query
        { connectResult := some "connection refused", executeResult := Except.error "ignored" }
        ⟨"conn1", "Test", "postgres", []⟩
        { source := some ⟨"c1", "events"⟩, visualization := some ⟨"table", []⟩ }).2
      = errorResult "connection refused" "" ∧
    (execute_query
        { connectResult := none, executeResult := Except.error "ignored" }
        ⟨"conn1", "Test", "postgres", []⟩
        { source := some ⟨"c1", "events"⟩, offset := some 5 }).2
      = errorResult "Offset can only be used with server-side pagination" "" ∧
    (execute_query
        { connectResult := none, executeResult := Except.error "Test error" }
        ⟨"conn1", "Test", "postgres", []⟩
        { source := some ⟨"c1", "events"⟩, visualization := some ⟨"table", []⟩ }).2
      = errorResult "Test error" "SELECT *\nFROM public.events\n\n\n\nLIMIT 100" := by
  refine ⟨?_, ?_, ?_, ?_⟩
  · exact claim_C7_error_envelope.1 _ _ _ rfl
  · exact claim_C7_error_envelope.2.1 _ _ _ "postgresql" _ rfl rfl
  · exact claim_C7_error_envelope.2.2.1 _ _ _ "postgresql" _ rfl rfl rfl
  · exact claim_C7_error_envelope.2.2.2.1 _ _ _ "postgresql" _ _ rfl rfl rfl rfl

/-- A successful translation produces the six clauses joined by newlines;
in particular the SQL ends with the string built by `buildLimit`. -/
lemma translateWithState_ends_with_limit (d : String) (q : QueryModel)
    (s : String) (q' : QueryModel)
    (h : translateWithState d q = Except.ok (s, q')) :
    ∃ a, s = a ++ buildLimit q.limit q.offset q.isServerPagination := by
  unfold translateWithState at h
  cases hpc : paginationCheck q with
  | error e => rw [hpc] at h; exact absurd h (by simp)
  | ok u =>
    rw [hpc] at h
    cases hviz : q.visualization with
    | none => rw [hviz] at h; exact absurd h (by simp)
    | some viz =>
      rw [hviz] at h
      dsimp only at h
      cases hsel : selectDispatch d q viz.type with
      | error e => rw [hsel] at h; exact absurd h (by simp)
      | ok p =>
        obtain ⟨selectClause, agg'⟩ := p
        rw [hsel] at h
        dsimp only at h
        cases hfrom : buildFrom d q.source with
        | error e => rw [hfrom] at h; exact absurd h (by simp)
        | ok fromClause =>
          rw [hfrom] at h
          simp only [Except.ok.injEq, Prod.mk.injEq] at h
          exact ⟨_, h.1.symm⟩

/-- C10. A `QueryModel` built with only `source` given keeps the Pydantic
default `limit = 100`; whenever a model with that default limit and
client-side pagination translates successfully, the SQL ends with
`LIMIT 100`; and `_build_limit` omits the clause exactly when `limit` is
null (and otherwise emits `LIMIT n`). -/
theorem claim_C10_default_limit :
    (∀ (src : QuerySource) (viz : Option Visualization),
       ({ source := some src, visualization := viz } : QueryModel).limit = some 100) ∧
    (∀ (d : String) (q : QueryModel) (s : String),
       q.isServerPagination = false → q.limit = some 100 →
       translate d q = Except.ok s → ∃ p, s = p ++ "LIMIT 100") ∧
    (∀ (off : Option Int), buildLimit none off false = "") ∧
    (∀ (n : Int) (off : Option Int),
       buildLimit (some n) off false = "LIMIT " ++ toString n) := by
  refine ⟨fun _ _ => rfl, ?_, fun _ => rfl, fun _ _ => rfl⟩
  intro d q s hsp hl ht
  unfold translate at ht
  cases hts : translateWithState d q with
  | error e => rw [hts] at ht; exact absurd ht (by simp [Except.map])
  | ok p =>
    obtain ⟨s0, q'⟩ := p
    rw [hts] at ht
    simp only [Except.map, Except.ok.injEq] at ht
    subst ht
    obtain ⟨a, ha⟩ := translateWithState_ends_with_limit d q s0 q' hts
    have hoff : q.offset = none :=
      offset_none_of_paginationCheck q hsp
        (paginationCheck_of_translate d q s0 q' hts)
    rw [hl, hoff, hsp] at ha
    exact ⟨a, ha⟩

/-- `claim_C10_default_limit` applied to the default-limit postgres model
with a table visualization. -/
theorem claim_C10_witness :
    ({ source := some ⟨"c1", "events"⟩,
       visualization := some ⟨"table", []⟩ } : QueryModel).limit = some 100 ∧
    (∃ p, "SELECT *\nFROM public.events\n\n\n\nLIMIT 100" = p ++ "LIMIT 100") ∧
    buildLimit none (some 3) false = "" ∧
    buildLimit (some 10) none false = "LIMIT 10" := by
  refine ⟨?_, ?_, ?_, ?_⟩
  · exact claim_C10_default_limit.1 ⟨"c1", "events"⟩ (some ⟨"table", []⟩)
  · exact claim_C10_default_limit.2.1 "postgresql"
      { source := some ⟨"c1", "events"⟩, visualization := some ⟨"table", []⟩ }
      "SELECT *\nFROM public.events\n\n\n\nLIMIT 100" rfl rfl rfl
  · exact claim_C10_default_limit.2.2.1 (some 3)
  · exact claim_C10_default_limit.2.2.2 10 none

/-- The metric loop relates its input and output lists pointwise by
`mutatedFrom`. -/
lemma metricItems_ok_forall2 {sf : List String} :
    ∀ {ms : List Metric} {it : List String} {ms' : List Metric},
      metricItems sf ms = Except.ok (it, ms') →
      List.Forall₂ (mutatedFrom sf) ms ms' := by
  intro ms
  induction ms with
  | nil =>
    intro it ms' h
    simp only [metricItems, Except.ok.injEq, Prod.mk.injEq] at h
    rw [← h.2]
    exact List.Forall₂.nil
  | cons m ms ih =>
    intro it ms' h
    rw [metricItems] at h
    by_cases hc : metricFuncName m = "COUNT"
    · rw [if_pos hc] at h
      cases hrec : metricItems sf ms with
      | error e => rw [hrec] at h; exact absurd h (by simp [Except.map])
      | ok p =>
        rw [hrec] at h
        simp only [Except.map, Except.ok.injEq, Prod.mk.injEq] at h
        rw [← h.2]
        exact List.Forall₂.cons ⟨rfl, rfl, Or.inl rfl⟩ (ih hrec)
    · rw [if_neg hc] at h
      by_cases hfal : optColFalsy m.column = true
      · rw [if_pos hfal] at h
        by_cases hsf : sf.isEmpty = true
        · rw [if_pos hsf] at h; exact absurd h (by simp)
        · rw [if_neg hsf] at h
          cases hrec : metricItems sf ms with
          | error e => rw [hrec] at h; exact absurd h (by simp [Except.map])
          | ok p =>
            rw [hrec] at h
            simp only [Except.map, Except.ok.injEq, Prod.mk.injEq] at h
            rw [← h.2]
            exact List.Forall₂.cons ⟨rfl, rfl, Or.inr ⟨hfal, rfl⟩⟩ (ih hrec)
      · rw [if_neg hfal] at h
        cases hrec : metricItems sf ms with
        | error e => rw [hrec] at h; exact absurd h (by simp [Except.map])
        | ok p =>
          rw [hrec] at h
          simp only [Except.map, Except.ok.injEq, Prod.mk.injEq] at h
          rw [← h.2]
          exact List.Forall₂.cons ⟨rfl, rfl, Or.inl rfl⟩ (ih hrec)

/-- Re-running the metric loop on its own output changes nothing: the
column overwrite is idempotent. -/
lemma metricItems_fixpoint {sf : List String} :
    ∀ {ms : List Metric} {it : List String} {ms' : List Metric},
      metricItems sf ms = Except.ok (it, ms') →
      metricItems sf ms' = Except.ok (it, ms') := by
  intro ms
  induction ms with
  | nil =>
    intro it ms' h
    simp only [metricItems, Except.ok.injEq, Prod.mk.injEq] at h
    rw [← h.1, ← h.2]
    rfl
  | cons m ms ih =>
    intro it ms' h
    rw [metricItems] at h
    by_cases hc : metricFuncName m = "COUNT"
    · rw [if_pos hc] at h
      cases hrec : metricItems sf ms with
      | error e => rw [hrec] at h; exact absurd h (by simp [Except.map])
      | ok p =>
        rw [hrec] at h
        simp only [Except.map, Except.ok.injEq, Prod.mk.injEq] at h
        rw [← h.1, ← h.2]
        rw [metricItems, if_pos hc, ih hrec]
        rfl
    · rw [if_neg hc] at h
      by_cases hfal : optColFalsy m.column = true
      · rw [if_pos hfal] at h
        by_cases hsf : sf.isEmpty = true
        · rw [if_pos hsf] at h; exact absurd h (by simp)
        · rw [if_neg hsf] at h
          cases hrec : metricItems sf ms with
          | error e => rw [hrec] at h; exact absurd h (by simp [Except.map])
          | ok p =>
            rw [hrec] at h
            simp only [Except.map, Except.ok.injEq, Prod.mk.injEq] at h
            rw [← h.1, ← h.2]
            have hfn : metricFuncName { m with column := some (sf.headD "") }
                = metricFuncName m := rfl
            rw [metricItems, hfn, if_neg hc, ih hrec]
            by_cases hh : sf.headD "" = ""
            · have hcolf : optColFalsy (({ m with column := some (sf.headD "") } :
                  Metric).column) = true := by
                show optColFalsy (some (sf.headD "")) = true
                simp only [optColFalsy, decide_eq_true_eq]
                exact hh
              rw [if_pos hcolf, if_neg hsf]
              rfl
            · have hcolf : ¬ optColFalsy (({ m with column := some (sf.headD "") } :
                  Metric).column) = true := by
                show ¬ optColFalsy (some (sf.headD "")) = true
                simp only [optColFalsy, decide_eq_true_eq]
                exact hh
              rw [if_neg hcolf]
              rfl
      · rw [if_neg hfal] at h
        cases hrec : metricItems sf ms with
        | error e => rw [hrec] at h; exact absurd h (by simp [Except.map])
        | ok p =>
          rw [hrec] at h
          simp only [Except.map, Except.ok.injEq, Prod.mk.injEq] at h
          rw [← h.1, ← h.2]
          rw [metricItems, if_neg hc, if_neg hfal, ih hrec]
          rfl

/-- `_build_select` delegates its metric handling to the metric loop. -/
lemma buildSelect_metrics {ms : List Metric} {gb sf : List String}
    {cl : String} {ms' : List Metric}
    (h : buildSelect ms gb sf = Except.ok (cl, ms')) :
    ∃ it, metricItems sf ms = Except.ok (it, ms') := by
  unfold buildSelect at h
  cases hmi : metricItems sf ms with
  | error e => rw [hmi] at h; exact absurd h (by simp)
  | ok p =>
    obtain ⟨mItems, msAfter⟩ := p
    rw [hmi] at h
    dsimp only at h
    have hms : msAfter = ms' := by
      split at h
      · split at h <;> (simp only [Except.ok.injEq, Prod.mk.injEq] at h; exact h.2)
      · split at h <;> (simp only [Except.ok.injEq, Prod.mk.injEq] at h; exact h.2)
    exact ⟨mItems, by rw [hms]⟩

/-- `_build_select_with_granularity` delegates its metric handling to the
metric loop. -/
lemma buildSelectWithGranularity_metrics {d : String} {ms : List Metric}
    {gb sf : List String} {tc g : Option String} {cl : String} {ms' : List Metric}
    (h : buildSelectWithGranularity d ms gb sf tc g = Except.ok (cl, ms')) :
    ∃ it, metricItems sf ms = Except.ok (it, ms') := by
  unfold buildSelectWithGranularity at h
  by_cases hcond : strOptTruthy tc = true ∧ strOptTruthy g = true
  · rw [if_pos hcond] at h
    cases htt : truncSelectItem d (tc.getD "") (g.getD "") with
    | error e => rw [htt] at h; exact absurd h (by simp [Except.map])
    | ok te =>
      rw [htt] at h
      dsimp only [Except.map] at h
      cases hmi : metricItems sf ms with
      | error e => rw [hmi] at h; exact absurd h (by simp)
      | ok p =>
        rw [hmi] at h
        simp only [Except.ok.injEq, Prod.mk.injEq] at h
        exact ⟨p.1, by rw [← h.2]⟩
  · rw [if_neg hcond] at h
    dsimp only at h
    cases hmi : metricItems sf ms with
    | error e => rw [hmi] at h; exact absurd h (by simp)
    | ok p =>
      rw [hmi] at h
      simp only [Except.ok.injEq, Prod.mk.injEq] at h
      exact ⟨p.1, by rw [← h.2]⟩

/-- Re-running `_build_select` on its own output metric list reproduces
the same clause and state. -/
lemma buildSelect_fixpoint {ms : List Metric} {gb sf : List String}
    {cl : String} {ms' : List Metric}
    (h : buildSelect ms gb sf = Except.ok (cl, ms')) :
    buildSelect ms' gb sf = Except.ok (cl, ms') := by
  unfold buildSelect at h ⊢
  cases hmi : metricItems sf ms with
  | error e => rw [hmi] at h; exact absurd h (by simp)
  | ok p =>
    obtain ⟨mItems, msAfter⟩ := p
    rw [hmi] at h
    have hms : msAfter = ms' := by
      dsimp only at h
      split at h
      · split at h <;> (simp only [Except.ok.injEq, Prod.mk.injEq] at h; exact h.2)
      · split at h <;> (simp only [Except.ok.injEq, Prod.mk.injEq] at h; exact h.2)
    subst hms
    rw [metricItems_fixpoint hmi]
    exact h

/-- Re-running `_build_select_with_granularity` on its own output metric
list reproduces the same clause and state. -/
lemma buildSelectWithGranularity_fixpoint {d : String} {ms : List Metric}
    {gb sf : List String} {tc g : Option String} {cl : String} {ms' : List Metric}
    (h : buildSelectWithGranularity d ms gb sf tc g = Except.ok (cl, ms')) :
    buildSelectWithGranularity d ms' gb sf tc g = Except.ok (cl, ms') := by
  unfold buildSelectWithGranularity at h ⊢
  by_cases hcond : strOptTruthy tc = true ∧ strOptTruthy g = true
  · rw [if_pos hcond] at h ⊢
    cases htt : truncSelectItem d (tc.getD "") (g.getD "") with
    | error e => rw [htt] at h; exact absurd h (by simp [Except.map])
    | ok te =>
      rw [htt] at h
      dsimp only [Except.map] at h ⊢
      cases hmi : metricItems sf ms with
      | error e => rw [hmi] at h; exact absurd h (by simp)
      | ok p =>
        obtain ⟨mItems, msAfter⟩ := p
        rw [hmi] at h
        have hms : msAfter = ms' := by
          simp only [Except.ok.injEq, Prod.mk.injEq] at h
          exact h.2
        subst hms
        rw [metricItems_fixpoint hmi]
        exact h
  · rw [if_neg hcond] at h ⊢
    dsimp only at h ⊢
    cases hmi : metricItems sf ms with
    | error e => rw [hmi] at h; exact absurd h (by simp)
    | ok p =>
      obtain ⟨mItems, msAfter⟩ := p
      rw [hmi] at h
      have hms : msAfter = ms' := by
        simp only [Except.ok.injEq, Prod.mk.injEq] at h
        exact h.2
      subst hms
      rw [metricItems_fixpoint hmi]
      exact h

/-- The select dispatch relates the input and output metric lists
pointwise by `mutatedFrom` (the table path leaves them untouched). -/
lemma selectDispatch_forall2 {d : String} {q : QueryModel} {vt cl : String}
    {agg' : List Metric}
    (h : selectDispatch d q vt = Except.ok (cl, agg')) :
    List.Forall₂ (mutatedFrom q.selectedFields) q.agg agg' := by
  unfold selectDispatch at h
  by_cases hitg : isTimeGranularity q vt = true
  · rw [if_pos hitg] at h
    obtain ⟨it, hmi⟩ := buildSelectWithGranularity_metrics h
    exact metricItems_ok_forall2 hmi
  · rw [if_neg hitg] at h
    by_cases htab : vt = "table" ∧ ¬ q.selectedFields.isEmpty = true
    · rw [if_pos htab] at h
      cases hbt : buildSelectForTable q.agg q.groupBy q.selectedFields with
      | error e => rw [hbt] at h; exact absurd h (by simp [Except.map])
      | ok s0 =>
        rw [hbt] at h
        simp only [Except.map, Except.ok.injEq, Prod.mk.injEq] at h
        rw [← h.2]
        exact List.forall₂_same.mpr (fun m _ => ⟨rfl, rfl, Or.inl rfl⟩)
    · rw [if_neg htab] at h
      obtain ⟨it, hmi⟩ := buildSelect_metrics h
      exact metricItems_ok_forall2 hmi

/-- Lists of equal length are empty together. -/
lemma isEmpty_eq_of_length {α β : Type} {l₁ : List α} {l₂ : List β}
    (h : l₁.length = l₂.length) : l₁.isEmpty = l₂.isEmpty := by
  cases l₁ <;> cases l₂ <;> simp_all

/-- Re-running the select dispatch on the post-call query model reproduces
the same clause and metric list. -/
lemma selectDispatch_fixpoint {d : String} {q : QueryModel} {vt cl : String}
    {agg' : List Metric}
    (h : selectDispatch d q vt = Except.ok (cl, agg')) :
    selectDispatch d { q with agg := agg' } vt = Except.ok (cl, agg') := by
  unfold selectDispatch at h ⊢
  by_cases hitg : isTimeGranularity q vt = true
  · rw [if_pos (show isTimeGranularity { q with agg := agg' } vt = true from hitg)]
    rw [if_pos hitg] at h
    exact buildSelectWithGranularity_fixpoint h
  · rw [if_neg (show ¬ isTimeGranularity { q with agg := agg' } vt = true from hitg)]
    rw [if_neg hitg] at h
    by_cases htab : vt = "table" ∧ ¬ q.selectedFields.isEmpty = true
    · rw [if_pos (show vt = "table" ∧
          ¬ ({ q with agg := agg' } : QueryModel).selectedFields.isEmpty = true from htab)]
      rw [if_pos htab] at h
      cases hbt : buildSelectForTable q.agg q.groupBy q.selectedFields with
      | error e => rw [hbt] at h; exact absurd h (by simp [Except.map])
      | ok s0 =>
        rw [hbt] at h
        simp only [Except.map, Except.ok.injEq, Prod.mk.injEq] at h
        obtain ⟨hcl, hagg⟩ := h
        rw [← hagg]
        show (buildSelectForTable q.agg q.groupBy q.selectedFields).map
            (fun s => (s, q.agg)) = Except.ok (cl, q.agg)
        rw [hbt, ← hcl]
        rfl
    · rw [if_neg (show ¬ (vt = "table" ∧
          ¬ ({ q with agg := agg' } : QueryModel).selectedFields.isEmpty = true) from htab)]
      rw [if_neg htab] at h
      exact buildSelect_fixpoint h

/-- Canonical decomposition of a successful `translateWithState` run into
its stages. -/
lemma translateWithState_ok_destruct {d : String} {q : QueryModel} {s : String}
    {q' : QueryModel}
    (h : translateWithState d q = Except.ok (s, q')) :
    ∃ (viz : Visualization) (cl : String) (agg' : List Metric) (fc : String),
      paginationCheck q = Except.ok () ∧ q.visualization = some viz ∧
      selectDispatch d q viz.type = Except.ok (cl, agg') ∧
      buildFrom d q.source = Except.ok fc ∧
      q' = { q with agg := agg' } ∧
      s = cl ++ "\n" ++ fc ++ "\n" ++ buildWhere d q.filters q.timeRange ++ "\n"
        ++ groupByClauseFor q viz.type ++ "\n" ++ buildOrderBy q.sort ++ "\n"
        ++ buildLimit q.limit q.offset q.isServerPagination := by
  unfold translateWithState at h
  cases hpc : paginationCheck q with
  | error e => rw [hpc] at h; exact absurd h (by simp)
  | ok u =>
    rw [hpc] at h
    cases u
    cases hviz : q.visualization with
    | none => rw [hviz] at h; exact absurd h (by simp)
    | some viz =>
      rw [hviz] at h
      dsimp only at h
      cases hsel : selectDispatch d q viz.type with
      | error e => rw [hsel] at h; exact absurd h (by simp)
      | ok p =>
        obtain ⟨cl, agg'⟩ := p
        rw [hsel] at h
        dsimp only at h
        cases hfrom : buildFrom d q.source with
        | error e => rw [hfrom] at h; exact absurd h (by simp)
        | ok fc =>
          rw [hfrom] at h
          simp only [Except.ok.injEq, Prod.mk.injEq] at h
          exact ⟨viz, cl, agg', fc, rfl, rfl, hsel, rfl, h.2.symm, h.1.symm⟩

/-- Converse direction: the stages assemble into a successful run. -/
lemma translateWithState_ok_construct {d : String} {q : QueryModel}
    {viz : Visualization} {cl : String} {agg' : List Metric} {fc : String}
    (hpc : paginationCheck q = Except.ok ())
    (hviz : q.visualization = some viz)
    (hsel : selectDispatch d q viz.type = Except.ok (cl, agg'))
    (hfrom : buildFrom d q.source = Except.ok fc) :
    translateWithState d q = Except.ok
      (cl ++ "\n" ++ fc ++ "\n" ++ buildWhere d q.filters q.timeRange ++ "\n"
        ++ groupByClauseFor q viz.type ++ "\n" ++ buildOrderBy q.sort ++ "\n"
        ++ buildLimit q.limit q.offset q.isServerPagination,
       { q with agg := agg' }) := by
  unfold translateWithState
  rw [hpc]
  dsimp only
  rw [hviz]
  dsimp only
  rw [hsel]
  dsimp only
  rw [hfrom]

/-- The group-by dispatch only reads `agg` through its emptiness, so the
clause is stable under a length-preserving change of `agg`. -/
lemma groupByClauseFor_agg {q : QueryModel} {agg' : List Metric} {vt : String}
    (hlen : agg'.isEmpty = q.agg.isEmpty) :
    groupByClauseFor { q with agg := agg' } vt = groupByClauseFor q vt := by
  unfold groupByClauseFor useGranGroupBy isTimeGranularity timeColumnOf
  dsimp only
  rw [hlen]

/-- C5 (amended). `translate` is deterministic, but not free of effects on
its argument: on success the post-call model agrees with the input on
every field except `agg`, whose metrics keep their function and alias
while a falsy `column` may be overwritten with `selectedFields[0]`
(`mutatedFrom`); re-running the translation on the post-call model yields
the same SQL string and the same model, so repeated calls on the same
(mutated) object return equal SQL. -/
theorem claim_C5_translate_effects :
    (∀ (d : String) (q : QueryModel) (s : String) (q' : QueryModel),
       translateWithState d q = Except.ok (s, q') →
       q'.source = q.source ∧ q'.filters = q.filters ∧ q'.groupBy = q.groupBy ∧
       q'.timeRange = q.timeRange ∧ q'.comparison = q.comparison ∧
       q'.sort = q.sort ∧ q'.limit = q.limit ∧ q'.offset = q.offset ∧
       q'.isServerPagination = q.isServerPagination ∧
       q'.visualization = q.visualization ∧ q'.selectedFields = q.selectedFields ∧
       q'.granularity = q.granularity ∧
       List.Forall₂ (mutatedFrom q.selectedFields) q.agg q'.agg) ∧
    (∀ (d : String) (q : QueryModel) (s : String) (q' : QueryModel),
       translateWithState d q = Except.ok (s, q') →
       translateWithState d q' = Except.ok (s, q')) := by
  constructor
  · intro d q s q' h
    obtain ⟨viz, cl, agg', fc, hpc, hviz, hsel, hfrom, hq', hs⟩ :=
      translateWithState_ok_destruct h
    subst hq'
    exact ⟨rfl, rfl, rfl, rfl, rfl, rfl, rfl, rfl, rfl, rfl, rfl, rfl,
      selectDispatch_forall2 hsel⟩
  · intro d q s q' h
    obtain ⟨viz, cl, agg', fc, hpc, hviz, hsel, hfrom, hq', hs⟩ :=
      translateWithState_ok_destruct h
    subst hq'
    have hlen : agg'.isEmpty = q.agg.isEmpty :=
      (isEmpty_eq_of_length (selectDispatch_forall2 hsel).length_eq).symm
    have hrun := translateWithState_ok_construct
      (show paginationCheck { q with agg := agg' } = Except.ok () from hpc)
      (show ({ q with agg := agg' } : QueryModel).visualization = some viz from hviz)
      (selectDispatch_fixpoint hsel)
      (show buildFrom d ({ q with agg := agg' } : QueryModel).source = Except.ok fc
        from hfrom)
    rw [hrun, groupByClauseFor_agg hlen, hs]

/-- `claim_C5_translate_effects` at the pie-chart example: the sum metric
with no column is related to its mutated form by `mutatedFrom`, and
re-translating the mutated model reproduces the same SQL and model. -/
theorem claim_C5_witness :
    List.Forall₂ (mutatedFrom ["price"])
      [{ column := none, function := "sum", aliasName := "s" }]
      [{ column := some "price", function := "sum", aliasName := "s" }] ∧
    translateWithState "postgresql"
      { source := some ⟨"c1", "events"⟩,
        agg := [{ column := some "price", function := "sum", aliasName := "s" }],
        limit := none,
        visualization := some ⟨"pie", []⟩,
        selectedFields := ["price"] }
      = Except.ok ("SELECT SUM(price) AS s\nFROM public.events\n\n\n\n",
          { source := some ⟨"c1", "events"⟩,
            agg := [{ column := some "price", function := "sum", aliasName := "s" }],
            limit := none,
            visualization := some ⟨"pie", []⟩,
            selectedFields := ["price"] }) := by
  constructor
  · have h := (claim_C5_translate_effects.1 "postgresql"
      { source := some ⟨"c1", "events"⟩,
        agg := [{ column := none, function := "sum", aliasName := "s" }],
        limit := none,
        visualization := some ⟨"pie", []⟩,
        selectedFields := ["price"] }
      "SELECT SUM(price) AS s\nFROM public.events\n\n\n\n"
      { source := some ⟨"c1", "events"⟩,
        agg := [{ column := some "price", function := "sum", aliasName := "s" }],
        limit := none,
        visualization := some ⟨"pie", []⟩,
        selectedFields := ["price"] }
      rfl)
    exact h.2.2.2.2.2.2.2.2.2.2.2.2
  · exact claim_C5_translate_effects.2 "postgresql"
      { source := some ⟨"c1", "events"⟩,
        agg := [{ column := none, function := "sum", aliasName := "s" }],
        limit := none,
        visualization := some ⟨"pie", []⟩,
        selectedFields := ["price"] }
      "SELECT SUM(price) AS s\nFROM public.events\n\n\n\n"
      { source := some ⟨"c1", "events"⟩,
        agg := [{ column := some "price", function := "sum", aliasName := "s" }],
        limit := none,
        visualization := some ⟨"pie", []⟩,
        selectedFields := ["price"] }
      rfl

/-- Mapping a pointwise replacement of `c` over a list without `c` is the
identity. -/
lemma map_replace_id {c a : String} : ∀ {l : List String}, c ∉ l →
    l.map (fun col => if col = c then a else col) = l := by
  intro l
  induction l with
  | nil => intro _; rfl
  | cons x xs ih =>
    intro h
    have hx : x ≠ c := fun hxc => h (by rw [← hxc]; exact List.mem_cons_self x xs)
    rw [List.map_cons, if_neg hx, ih (fun hc => h (List.mem_cons_of_mem x hc))]

/-- Filtering `≠ c` over a list without `c` is the identity. -/
lemma filter_ne_of_not_mem {c : String} : ∀ {l : List String}, c ∉ l →
    l.filter (fun x => x ≠ c) = l := by
  intro l
  induction l with
  | nil => intro _; rfl
  | cons x xs ih =>
    intro h
    have hx : x ≠ c := fun hxc => h (by rw [← hxc]; exact List.mem_cons_self x xs)
    rw [List.filter_cons, if_pos (by simpa using hx), ih (fun hc => h (List.mem_cons_of_mem x hc))]

/-- C4 (amended). For a line visualization with a truthy granularity and
the time column heading `groupBy`, the SELECT contains the dialect's
truncated expression, aliased `trunc_<col>_<g>`, exactly once, and the
GROUP BY references that alias in place of the raw time column; the code
substitutes the alias only when the time column is the first `groupBy`
entry (query_translator.py lines 99-105), not at an arbitrary position as
originally claimed. -/
theorem claim_C4_granularity_amended :
    ∀ (d : String) (q : QueryModel) (src : QuerySource) (viz : Visualization)
      (tr : TimeRange) (c g te : String) (rest mi : List String) (agg' : List Metric),
      q.visualization = some viz → viz.type = "line" →
      q.granularity = some g → g ≠ "" →
      q.timeRange = some tr → tr.column = some c → c ≠ "" →
      q.groupBy = c :: rest → c ∉ rest →
      q.isServerPagination = false → q.offset = none →
      q.source = some src →
      truncSelectItem d c g = Except.ok te →
      metricItems q.selectedFields q.agg = Except.ok (mi, agg') →
      te ∉ rest → te ∉ mi → truncAliasName c g ≠ c →
      ∃ fc, buildFrom d q.source = Except.ok fc ∧
        translate d q = Except.ok
          ("SELECT " ++ String.intercalate ", " (te :: (rest ++ mi)) ++ "\n" ++ fc ++ "\n"
            ++ buildWhere d q.filters q.timeRange ++ "\n"
            ++ ("GROUP BY " ++ String.intercalate ", " (truncAliasName c g :: rest)) ++ "\n"
            ++ buildOrderBy q.sort ++ "\n"
            ++ buildLimit q.limit q.offset q.isServerPagination) ∧
        (te :: (rest ++ mi)).count te = 1 ∧
        (truncAliasName c g :: rest).count c = 0 := by
  intro d q src viz tr c g te rest mi agg' hviz hvt hg hgne htr hcol hcne hgb hrest
    hsp hoff hsrc hte hmi hterest htemi halias
  have hpc : paginationCheck q = Except.ok () := by
    unfold paginationCheck
    rw [hsp]
    simp [hoff]
  obtain ⟨fc, hfc⟩ : ∃ fc, buildFrom d q.source = Except.ok fc := by
    rw [hsrc]; exact ⟨_, rfl⟩
  have htc : timeColumnOf q = some c := by
    unfold timeColumnOf; rw [htr]; exact hcol
  have hitg : isTimeGranularity q viz.type = true := by
    simp [isTimeGranularity, hvt, hg, htr, hcol, hgb, strOptTruthy, hgne]
  have hdims : List.filter (fun x => x ≠ c) (c :: rest) = rest := by
    rw [List.filter_cons, if_neg (by simp)]
    exact filter_ne_of_not_mem hrest
  have hsel : selectDispatch d q viz.type
      = Except.ok ("SELECT " ++ String.intercalate ", " (te :: (rest ++ mi)), agg') := by
    unfold selectDispatch
    rw [if_pos hitg, htc, hg]
    unfold buildSelectWithGranularity
    rw [if_pos (show strOptTruthy (some c) = true ∧ strOptTruthy (some g) = true by
      constructor <;> simp [strOptTruthy, hcne, hgne])]
    rw [show truncSelectItem d ((some c : Option String).getD "")
        ((some g : Option String).getD "") = Except.ok te from hte]
    dsimp only [Except.map]
    rw [hgb, hdims, hmi]
    rfl
  have hugg : useGranGroupBy q (isTimeGranularity q viz.type) = true := by
    simp [useGranGroupBy, hitg, htr, hcol, hgb]
  have hgbc : groupByClauseFor q viz.type
      = "GROUP BY " ++ String.intercalate ", " (truncAliasName c g :: rest) := by
    unfold groupByClauseFor
    rw [if_pos hugg, htc, hg]
    unfold buildGroupByWithGranularity
    rw [hgb]
    dsimp only
    rw [if_neg (by simp)]
    rw [List.map_cons, if_pos rfl, map_replace_id hrest]
  have hrun := translateWithState_ok_construct hpc hviz hsel hfc
  refine ⟨fc, hfc, ?_, ?_, ?_⟩
  · unfold translate
    rw [hrun]
    dsimp only [Except.map]
    rw [hgbc]
  · have hnotmem : te ∉ rest ++ mi := fun hmem =>
      (List.mem_append.mp hmem).elim (fun hh => hterest hh) (fun hh => htemi hh)
    rw [List.count_cons_self, List.count_eq_zero.mpr hnotmem]
  · have hnotmem : c ∉ truncAliasName c g :: rest := by
      intro hmem
      rcases List.mem_cons.mp hmem with hh | hh
      · exact halias hh.symm
      · exact hrest hh
    exact List.count_eq_zero.mpr hnotmem

/-- `claim_C4_granularity_amended` at the ClickHouse daily-bucketing
scenario with `groupBy = [ts, service]`. -/
theorem claim_C4_amended_witness :
    ∃ fc, buildFrom "clickhouse" (some (⟨"c1", "events"⟩ : QuerySource)) = Except.ok fc ∧
      translate "clickhouse"
        { source := some ⟨"c1", "events"⟩,
          groupBy := ["ts", "service"],
          agg := [{ column := none, function := "count", aliasName := "n" }],
          timeRange := some { column := some "ts", range := "last_7_days" },
          limit := none,
          visualization := some ⟨"line", []⟩,
          granularity := some "day" }
        = Except.ok
          ("SELECT " ++ String.intercalate ", "
              ("toStartOfDay(ts) AS trunc_ts_day" :: (["service"] ++ ["COUNT(*) AS n"]))
            ++ "\n" ++ fc ++ "\n"
            ++ buildWhere "clickhouse" []
                (some { column := some "ts", range := "last_7_days" }) ++ "\n"
            ++ ("GROUP BY " ++ String.intercalate ", "
                (truncAliasName "ts" "day" :: ["service"])) ++ "\n"
            ++ buildOrderBy [] ++ "\n" ++ buildLimit none none false) ∧
      ("toStartOfDay(ts) AS trunc_ts_day" :: (["service"] ++ ["COUNT(*) AS n"])).count
          "toStartOfDay(ts) AS trunc_ts_day" = 1 ∧
      (truncAliasName "ts" "day" :: ["service"]).count "ts" = 0 := by
  exact claim_C4_granularity_amended "clickhouse"
    { source := some ⟨"c1", "events"⟩,
      groupBy := ["ts", "service"],
      agg := [{ column := none, function := "count", aliasName := "n" }],
      timeRange := some { column := some "ts", range := "last_7_days" },
      limit := none,
      visualization := some ⟨"line", []⟩,
      granularity := some "day" }
    ⟨"c1", "events"⟩ ⟨"line", []⟩ { column := some "ts", range := "last_7_days" }
    "ts" "day" "toStartOfDay(ts) AS trunc_ts_day" ["service"] ["COUNT(*) AS n"]
    [{ column := none, function := "count", aliasName := "n" }]
    rfl rfl rfl (by decide) rfl rfl (by decide) rfl (by decide) rfl rfl rfl rfl rfl
    (by decide) (by decide) (by decide)

end Facet
